import Mathlib

/-!
Verification of the grid-parsing / block-segmentation ETL pipeline.

The source program reads each spreadsheet through
`pd.read_excel(file_path, usecols='B:Q', header=None)`, which yields a
DataFrame whose 16 columns carry the integer labels 1..16 (the original
sheet positions of columns B..Q).  Throughout this development a grid row
is modelled positionally, as a list of 16 nullable cells at positions
0..15 (position p corresponds to pandas column label p+1).  The pandas
access conventions that the source relies on are translated as follows:

* `row[k]`            (scalar, label-based)   = position k-1;
* `row[k:]`           (slice, position-based) = positions k, k+1, ...;
* `df.iloc[i, j]` and `df.iloc[i, j:]`        = positions j, j+1, ...;
* slices clamp at the end of the row, scalar access out of range raises.

Cell values are drawn from `Nat`; a cell is `none` exactly when the
spreadsheet cell is null (NaN).  The whitespace-trimming `.str.strip()`
applied to metric names acts as the identity on this abstract value
domain.  Fallible pandas operations (out-of-range scalar access, shape
mismatches on column assignment, `pd.concat` of an empty list) are
modelled by `Option`, with `none` for a raised exception.
-/

/-- A cell of the grid: `none` models a null (NaN) spreadsheet cell. -/
abbrev Cell := Option Nat

/-- A grid row: the cells of one spreadsheet row, positions 0..15. -/
abbrev Row := List Cell

/-- A grid: the rows of one spreadsheet file restricted to columns B..Q. -/
abbrev Grid := List Row

/-- Cell of row `r` at position `j`; out-of-range positions read as null. -/
def cellAt (r : Row) (j : Nat) : Cell := (r.get? j).getD none

/-- Source `extract_month_list`: `df.iloc[1, 4:16].tolist()`.  Scalar row
access fails (IndexError) when the grid has fewer than 2 rows; the column
slice 4:16 clamps, so narrow grids yield fewer than 12 labels without
failing. -/
def extract_month_list (g : Grid) : Option (List Cell) :=
  match g.get? 1 with
  | none => none
  | some r => some ((r.drop 4).take 12)

/-- Source `extract_lead_data`, outer shape test:
`pd.notna(row[1]) and row[2:].isna().all()` — position 0 is non-null and
positions 2..15 are all null (position 1 is unconstrained). -/
def lead_shape (r : Row) : Bool :=
  (cellAt r 0).isSome && (r.drop 2).all Option.isNone

/-- Source `df[df[1] == first_column_value].count()[1]`: the number of
grid rows whose position-0 cell equals `v`. -/
def col0_count (g : Grid) (v : Cell) : Nat :=
  (g.filter (fun q => cellAt q 0 == v)).length

/-- Source `extract_lead_data`, inner gates: the repetition-count test
`df[df[1] == first_column_value].count()[1] < 9` and the previous-row
test `i == 0 or row[1] != df.iloc[i - 1, 1]` (current position 0 against
previous row's position 1). -/
def lead_gate (g : Grid) (i : Nat) (r : Row) : Bool :=
  decide (col0_count g (cellAt r 0) < 9) &&
    (i == 0 || cellAt (g.getD (i - 1) []) 1 != cellAt r 0)

/-- A row opens a new LEAD accumulator iff the shape test and both inner
gates succeed. -/
def lead_start (g : Grid) (i : Nat) (r : Row) : Bool :=
  lead_shape r && lead_gate g i r

/-- Source close of a LEAD accumulator: the emitted pair is the
accumulated rows together with `lead_df.iloc[0, 0]`, the position-0 cell
of the first accumulated row. -/
def close_block0 (cur : List Row) : List Row × Cell :=
  (cur, cellAt (cur.headD []) 0)

/-- The scan loop of `extract_lead_data`: `i` is the index of the first
row of `rows` within `g`, `cur` the open accumulator (`[]` when none is
open).  A row passing the shape test but failing an inner gate falls
through both branches of the source's `if`/`elif` and is discarded. -/
def lead_go (g : Grid) : Nat → List Row → List Row → List (List Row × Cell)
  | _, [], cur => if cur.isEmpty then [] else [close_block0 cur]
  | i, r :: rest, cur =>
    if lead_shape r then
      if lead_gate g i r then
        if cur.isEmpty then lead_go g (i + 1) rest [r]
        else close_block0 cur :: lead_go g (i + 1) rest [r]
      else lead_go g (i + 1) rest cur
    else if cur.isEmpty then lead_go g (i + 1) rest cur
    else lead_go g (i + 1) rest (cur ++ [r])

/-- Source `extract_lead_data`. -/
def extract_lead_data (g : Grid) : List (List Row × Cell) :=
  lead_go g 0 g []

/-- Source `extract_product_data`, shape test:
`pd.notna(row[2]) and lead_df.iloc[i, 3:].isna().all()` — position 1 is
non-null and positions 3..15 are all null. -/
def prod_shape (r : Row) : Bool :=
  (cellAt r 1).isSome && (r.drop 3).all Option.isNone

/-- Source previous-row test `i == 0 or row[2] != lead_df.iloc[i-1, 2]`:
current position 1 against previous row's position 2. -/
def prod_gate (b : List Row) (i : Nat) (r : Row) : Bool :=
  i == 0 || cellAt (b.getD (i - 1) []) 2 != cellAt r 1

/-- A row opens a new PRODUCT accumulator iff the single conjunction of
the shape test and the previous-row test succeeds. -/
def prod_start (b : List Row) (i : Nat) (r : Row) : Bool :=
  prod_shape r && prod_gate b i r

/-- Source close of a PRODUCT accumulator: the emitted pair is the
accumulated rows together with `product_df.iloc[0, 2]`, the position-2
cell of the first accumulated row. -/
def close_block2 (cur : List Row) : List Row × Cell :=
  (cur, cellAt (cur.headD []) 2)

/-- The scan loop of `extract_product_data`.  Here the start condition is
one conjunction, so every non-start row is appended whenever an
accumulator is open. -/
def prod_go (b : List Row) : Nat → List Row → List Row → List (List Row × Cell)
  | _, [], cur => if cur.isEmpty then [] else [close_block2 cur]
  | i, r :: rest, cur =>
    if prod_start b i r then
      if cur.isEmpty then prod_go b (i + 1) rest [r]
      else close_block2 cur :: prod_go b (i + 1) rest [r]
    else if cur.isEmpty then prod_go b (i + 1) rest cur
    else prod_go b (i + 1) rest (cur ++ [r])

/-- Source `extract_product_data`. -/
def extract_product_data (b : List Row) : List (List Row × Cell) :=
  prod_go b 0 b []

/-- Field names of a normalized record.  The five fixed fields are the
string column names of the source; a metric field is named by the metric
label extracted from position 3 of a block row. -/
inductive FieldName where
  | lead
  | productGroup
  | typ
  | product
  | month
  | metric (v : Nat)
deriving DecidableEq

/-- A normalized record: an ordered association of field names to cells,
modelling one row of the transformed DataFrame. -/
abbrev Rec := List (FieldName × Cell)

/-- Source `new_columns = product_df.iloc[:, 3].dropna().str.strip()`:
the non-null position-3 cells of the block rows, in order (trimming is
the identity on the abstract value domain). -/
def metric_names (b : List Row) : List Nat :=
  b.filterMap (fun r => cellAt r 3)

/-- Source `data = product_df.iloc[1:10, 4:16].values`: rows 1..9 of the
block, positions 4..15, both slices clamped. -/
def block_data (b : List Row) : List (List Cell) :=
  ((b.drop 1).take 9).map (fun r => (r.drop 4).take 12)

/-- Width of the transposed frame: the number of data columns of the
block's numeric region (12 for a 16-column grid, fewer for a narrow
one). -/
def data_width (b : List Row) : Nat :=
  ((block_data b).headD []).length

/-- Row `k` of the transformed frame: the fixed fields `LEAD`,
`PRODUCT GROUP` (position 0 of the block's first row), `TYPE` (position
1), `PRODUCT`, `Month` (the k-th month label), followed by the metric
fields in extraction order carrying data column `k`. -/
def transformed_record (b : List Row) (lead_value product_value : Cell)
    (month : List Cell) (k : Nat) : Rec :=
  [(FieldName.lead, lead_value),
   (FieldName.productGroup, cellAt (b.headD []) 0),
   (FieldName.typ, cellAt (b.headD []) 1),
   (FieldName.product, product_value),
   (FieldName.month, month.getD k none)]
  ++ ((metric_names b).map FieldName.metric).zip
      ((block_data b).map (fun dr => dr.getD k none))

/-- Source `transform_product_data`.  `product_df.iloc[0, 0]` raises on
an empty block; `reshaped_data.columns = new_columns` raises unless the
metric-name count equals the data row count; the `Month` column
assignment raises unless the month list has exactly `data_width b`
entries.  On success the result is one transformed record per data
column. -/
def transform_product_data (b : List Row) (lead_value product_value : Cell)
    (month : List Cell) : Option (List Rec) :=
  if b.isEmpty then none
  else if (metric_names b).length = (block_data b).length ∧
      month.length = data_width b then
    some ((List.range (data_width b)).map
      (transformed_record b lead_value product_value month))
  else none

/-- Sequencing of a fallible operation over a list: the first raised
exception aborts the whole run, as in the source loops. -/
def mapOpt (f : α → Option β) : List α → Option (List β)
  | [] => some []
  | a :: t =>
    match f a with
    | none => none
    | some b =>
      match mapOpt f t with
      | none => none
      | some bs => some (b :: bs)

/-- Source `process_file` on an already loaded grid: extract the month
labels, segment into LEAD blocks, segment each into PRODUCT blocks, and
transform each PRODUCT block; the result is the file's flat list of
transformed record batches in encounter order. -/
def process_file (g : Grid) : Option (List (List Rec)) :=
  match extract_month_list g with
  | none => none
  | some month =>
    match mapOpt (fun bl =>
        mapOpt (fun pp => transform_product_data pp.1 bl.2 pp.2 month)
          (extract_product_data bl.1))
        (extract_lead_data g) with
    | none => none
    | some nested => some nested.flatten

/-- Field-name list (column list) of a record batch, read off its first
record as pandas reads a DataFrame's columns. -/
def batch_columns (df : List Rec) : List FieldName :=
  (df.headD []).map Prod.fst

/-- Column union performed by `pd.concat` with the default outer join:
columns in order of first appearance across the batches. -/
def union_columns (dfs : List (List Rec)) : List FieldName :=
  dfs.foldl
    (fun acc df => acc ++ (batch_columns df).filter (fun c => !decide (c ∈ acc)))
    []

/-- Value of field `c` in record `rec`; a missing field reads as null,
as `pd.concat` fills absent columns with NaN. -/
def lookupField (c : FieldName) (rec : Rec) : Cell :=
  match rec.find? (fun p => decide (p.1 = c)) with
  | some p => p.2
  | none => none

/-- Source `pd.concat(result_data, ignore_index=True)`: raises on an
empty list of batches, otherwise reindexes every record to the column
union (order of first appearance, missing fields null) and concatenates
the records in batch order. -/
def pdConcat (dfs : List (List Rec)) : Option (List Rec) :=
  if dfs.isEmpty then none
  else
    some (dfs.flatten.map (fun rec =>
      (union_columns dfs).map (fun c => (c, lookupField c rec))))

/-- Source `filename.endswith(".xlsx")`: the file name's character
sequence ends with the characters `.xlsx`. -/
def ends_with_xlsx (name : String) : Bool :=
  ".xlsx".data.isSuffixOf name.data

/-- Source `main`, parameterized by the directory listing (file name and
loaded grid per entry, in enumeration order): process the files whose
names end in `.xlsx` and concatenate all their record batches.  (Named
`main_run` because Lean reserves `main` for executable entry points.) -/
def main_run (files : List (String × Grid)) : Option (List Rec) :=
  match mapOpt (fun f => process_file f.2)
      (files.filter (fun f => ends_with_xlsx f.1)) with
  | none => none
  | some dfss => pdConcat dfss.flatten

/-- The LEAD-start test exactly as claim C2 words it under the grid's
0-based column numbering: marker in column 1, columns 2..15 null,
repetition count over column 1, previous-row comparison on column 1. -/
def lead_start_claimed (g : Grid) (i : Nat) (r : Row) : Bool :=
  (cellAt r 1).isSome &&
    (List.range 14).all (fun k => (cellAt r (k + 2)).isNone) &&
    decide ((g.countP (fun q => cellAt q 1 == cellAt r 1)) < 9) &&
    (i == 0 || cellAt (g.getD (i - 1) []) 1 != cellAt r 1)

/-- The PRODUCT-start test exactly as claim C4 words it under the grid's
0-based column numbering: marker in column 2, columns 3..15 null,
previous-row comparison on column 2. -/
def prod_start_claimed (b : List Row) (i : Nat) (r : Row) : Bool :=
  (cellAt r 2).isSome &&
    (r.drop 3).all Option.isNone &&
    (i == 0 || cellAt (b.getD (i - 1) []) 2 != cellAt r 2)

/-- The rows the LEAD scan keeps, described row by row as in the amended
claim C3: a start row is kept and opens a block; a row passing the shape
test but failing an inner gate is discarded even when a block is open;
any other row is kept exactly when a block is open. -/
def lead_keep (g : Grid) : Nat → List Row → Bool → List Row
  | _, [], _ => []
  | i, r :: rest, opn =>
    if lead_start g i r then r :: lead_keep g (i + 1) rest true
    else if lead_shape r then lead_keep g (i + 1) rest opn
    else if opn then r :: lead_keep g (i + 1) rest opn
    else lead_keep g (i + 1) rest opn

/-- The rows the PRODUCT scan keeps: a start row is kept and opens a
block; every other row is kept exactly when a block is open. -/
def prod_keep (b : List Row) : Nat → List Row → Bool → List Row
  | _, [], _ => []
  | i, r :: rest, opn =>
    if prod_start b i r then r :: prod_keep b (i + 1) rest true
    else if opn then r :: prod_keep b (i + 1) rest opn
    else prod_keep b (i + 1) rest opn

/-- The code's LEAD-start test at grid position `k`. -/
def lead_start_at (g : Grid) (k : Nat) : Bool :=
  lead_start g k (g.getD k [])

/-- The code's LEAD shape test at grid position `k`. -/
def lead_shape_at (g : Grid) (k : Nat) : Bool :=
  lead_shape (g.getD k [])

/-- The code's PRODUCT-start test at block position `k`. -/
def prod_start_at (b : List Row) (k : Nat) : Bool :=
  prod_start b k (b.getD k [])

/-- The code's PRODUCT shape test at block position `k`. -/
def prod_shape_at (b : List Row) (k : Nat) : Bool :=
  prod_shape (b.getD k [])

/-- The grid with rows `i` and `j` exchanged. -/
def swap2 (g : Grid) (i j : Nat) : Grid :=
  (g.set i (g.getD j [])).set j (g.getD i [])

/-- A fully null 16-cell row. -/
def nrow : Row := List.replicate 16 none

/-- Concrete month-header row: labels 101..112 at positions 4..15. -/
def month_row : Row :=
  [none, none, none, none] ++ (List.range 12).map (fun c => some (101 + c))

/-- Concrete LEAD-start row: label 1 at position 0, rest null. -/
def lead_row : Row := [some 1] ++ List.replicate 15 none

/-- Concrete PRODUCT-start row: PRODUCT GROUP 3, TYPE 2 (the marker the
code checks), PRODUCT 4, positions 3..15 null. -/
def prod_row : Row := [some 3, some 2, some 4] ++ List.replicate 13 none

/-- Concrete metric row `t`: metric name 20+t at position 3, twelve data
values at positions 4..15. -/
def metric_row (t : Nat) : Row :=
  [none, none, none, some (20 + t)] ++
    (List.range 12).map (fun c => some (1000 + 12 * t + c))

/-- Concrete single-lead single-product grid: junk row, month header,
one LEAD-start row, one PRODUCT-start row, nine metric rows. -/
def gW1 : Grid :=
  [nrow, month_row, lead_row, prod_row] ++ (List.range 9).map metric_row

/-- The single LEAD block of `gW1`. -/
def bW1 : List Row :=
  [lead_row, prod_row] ++ (List.range 9).map metric_row

/-- The single PRODUCT block of `gW1`. -/
def pW1 : List Row :=
  [prod_row] ++ (List.range 9).map metric_row

/-- The month labels of `gW1`. -/
def monthW1 : List Cell := (month_row.drop 4).take 12

/-- The records produced from `gW1`'s single product block. -/
def recsW1 : List Rec :=
  (transform_product_data pW1 (some 1) (some 4) monthW1).getD []

/-- Concrete short block: a product-start-like first row and three metric
rows only (three metric names, three data rows). -/
def bX6 : List Row :=
  [[some 7, some 8, some 9] ++ List.replicate 13 none] ++
    (List.range 3).map (fun t =>
      [none, none, none, some (30 + t)] ++
        (List.range 12).map (fun c => some (100 + 12 * t + c)))

/-- Twelve concrete month labels. -/
def month12 : List Cell := (List.range 12).map (fun c => some (200 + c))

/-- Concrete grid for the C9 counterexample: a LEAD-start, two plain
rows, and between them a row that passes the shape test but fails the
previous-row gate (hence is dropped). -/
def gX9 : Grid :=
  [[some 1, some 3] ++ List.replicate 14 none,
   [none, some 3, some 9] ++ List.replicate 13 none,
   [some 3] ++ List.replicate 15 none,
   [none, none, some 5] ++ List.replicate 13 none]

/-- `gX9` with rows 1 and 3 (both non-start rows of its single block)
exchanged: the exchange makes row 2 a LEAD-start. -/
def gX9s : Grid :=
  [[some 1, some 3] ++ List.replicate 14 none,
   [none, none, some 5] ++ List.replicate 13 none,
   [some 3] ++ List.replicate 15 none,
   [none, some 3, some 9] ++ List.replicate 13 none]

/-- Concrete grid for the C9 amended witness: a LEAD-start followed by
four metric-like rows failing both the LEAD and the PRODUCT shape
tests. -/
def gW9 : Grid :=
  [[some 1] ++ List.replicate 15 none,
   [none, none, none, some 9] ++ List.replicate 12 none,
   [none, none, none, some 8] ++ List.replicate 12 none,
   [none, none, none, some 7] ++ List.replicate 12 none,
   [none, none, none, some 6] ++ List.replicate 12 none]

/-- The emitted LEAD label of every pair produced by the scan loop is the
position-0 cell of the pair's first row. -/
theorem lead_go_label (g : Grid) :
    ∀ (rows : List Row) (i : Nat) (cur : List Row),
      ∀ pr ∈ lead_go g i rows cur, pr.2 = cellAt (pr.1.headD []) 0 := by
  intro rows
  induction rows with
  | nil =>
    intro i cur pr hpr
    unfold lead_go at hpr
    split at hpr
    · simp at hpr
    · simp at hpr
      subst hpr
      rfl
  | cons r rest ih =>
    intro i cur pr hpr
    unfold lead_go at hpr
    split at hpr
    · split at hpr
      · split at hpr
        · exact ih _ _ pr hpr
        · rcases List.mem_cons.mp hpr with h | h
          · subst h
            rfl
          · exact ih _ _ pr h
      · exact ih _ _ pr hpr
    · split at hpr
      · exact ih _ _ pr hpr
      · exact ih _ _ pr hpr

/-- The emitted PRODUCT label of every pair produced by the scan loop is
the position-2 cell of the pair's first row. -/
theorem prod_go_label (b : List Row) :
    ∀ (rows : List Row) (i : Nat) (cur : List Row),
      ∀ pr ∈ prod_go b i rows cur, pr.2 = cellAt (pr.1.headD []) 2 := by
  intro rows
  induction rows with
  | nil =>
    intro i cur pr hpr
    unfold prod_go at hpr
    split at hpr
    · simp at hpr
    · simp at hpr
      subst hpr
      rfl
  | cons r rest ih =>
    intro i cur pr hpr
    unfold prod_go at hpr
    split at hpr
    · split at hpr
      · exact ih _ _ pr hpr
      · rcases List.mem_cons.mp hpr with h | h
        · subst h
          rfl
        · exact ih _ _ pr h
    · split at hpr
      · exact ih _ _ pr hpr
      · exact ih _ _ pr hpr

/-- A `.all Option.isNone` check on a positional suffix of a 16-cell row
says exactly that cells `m..15` are null. -/
theorem drop_all_isNone_iff (r : Row) (m : Nat) (hlen : r.length = 16) :
    ((r.drop m).all Option.isNone = true) ↔
      ∀ k, k < 16 → m ≤ k → cellAt r k = none := by
  rw [List.all_eq_true]
  constructor
  · intro h k hk16 hmk
    have hk : k < r.length := by omega
    have h1 : (r.drop m)[k - m]? = r[k]? := by
      rw [List.getElem?_drop]
      congr 1
      omega
    rw [List.getElem?_eq_getElem hk] at h1
    have hmem : r[k] ∈ r.drop m := List.mem_iff_getElem?.mpr ⟨k - m, h1⟩
    have := h _ hmem
    have hkval : cellAt r k = r[k] := by
      simp [cellAt, List.getD_eq_getElem?_getD, List.getElem?_eq_getElem hk]
    rw [hkval]
    exact Option.isNone_iff_eq_none.mp this
  · intro h x hx
    obtain ⟨idx, hidx⟩ := List.mem_iff_getElem?.mp hx
    rw [List.getElem?_drop] at hidx
    have hlt : m + idx < r.length := by
      rcases List.getElem?_eq_some_iff.mp hidx with ⟨hl, _⟩
      exact hl
    have := h (m + idx) (by omega) (by omega)
    have hval : cellAt r (m + idx) = x := by
      simp [cellAt, List.getD_eq_getElem?_getD, hidx]
    rw [hval] at this
    subst this
    rfl

/-- Claim C7: the month-header extractor returns row index 1, columns
4..15 (clamped to the row's actual width) and fails exactly when the grid
has fewer than 2 rows; a narrow grid does not make it fail. -/
theorem month_extractor_spec (g : Grid) :
    (extract_month_list g = none ↔ g.length < 2) ∧
    (∀ r1, g.get? 1 = some r1 →
      extract_month_list g = some ((r1.drop 4).take 12) ∧
      ((r1.drop 4).take 12).length = min 12 (r1.length - 4)) := by
  constructor
  · unfold extract_month_list
    cases h : g.get? 1 with
    | none =>
      simp only [true_iff]
      have := List.get?_eq_none.mp h
      omega
    | some r =>
      simp only [reduceCtorEq, false_iff, not_lt]
      have : ¬ g.length ≤ 1 := by
        intro hle
        rw [List.get?_eq_none.mpr hle] at h
        exact Option.noConfusion h
      omega
  · intro r1 h1
    unfold extract_month_list
    rw [h1]
    refine ⟨rfl, ?_⟩
    simp [List.length_take, List.length_drop]

/-- Witness for C7 at a concrete 2-row, 5-column grid: extraction
succeeds (no failure despite fewer than 16 columns). -/
theorem month_extractor_spec_witness :
    extract_month_list [[], [none, none, none, none, some 9]] =
      some ((([none, none, none, none, some 9] : Row).drop 4).take 12) :=
  ((month_extractor_spec [[], [none, none, none, none, some 9]]).2 _ rfl).1

/-- Counterexample to C7 as stated: a grid with 2 rows but only 5 columns
does not make the extractor fail; it returns the single clamped value. -/
theorem month_extractor_claim_counterexample :
    (extract_month_list [[], [none, none, none, none, some 9]]).isSome = true ∧
    (([[], [none, none, none, none, some 9]] : Grid).getD 1 []).length < 16 := by
  decide

/-- Claim C10: a directory entry whose file name does not end in `.xlsx`
is skipped entirely; removing it from the listing leaves the final
dataset unchanged. -/
theorem xlsx_filter_spec (pre post : List (String × Grid)) (f : String × Grid)
    (hf : ends_with_xlsx f.1 = false) :
    main_run (pre ++ f :: post) = main_run (pre ++ post) := by
  unfold main_run
  rw [List.filter_append, List.filter_cons, List.filter_append, hf]
  simp

/-- Witness for C10: a `.txt` entry contributes nothing. -/
theorem xlsx_filter_spec_witness :
    main_run [(("a.txt" : String), ([] : Grid))] = main_run [] :=
  xlsx_filter_spec [] [] (("a.txt" : String), ([] : Grid)) (by decide)

/-- Counterexample to C2 as stated: the single row `[5, null, ..., null]`
is treated as a LEAD-start by the code (the marker actually checked is
column 0), while the claimed condition (marker in column 1) rejects it. -/
theorem lead_start_claim_counterexample :
    lead_start [[some 5] ++ List.replicate 15 none] 0
        ([some 5] ++ List.replicate 15 none) = true ∧
    lead_start_claimed [[some 5] ++ List.replicate 15 none] 0
        ([some 5] ++ List.replicate 15 none) = false ∧
    extract_lead_data [[some 5] ++ List.replicate 15 none] =
      [([[some 5] ++ List.replicate 15 none], some 5)] := by
  decide

/-- Claim C2 amended: on a 16-cell row, the code's LEAD-start test holds
iff column 0 is non-null, columns 2..15 are all null, the column-0 value
occurs fewer than 9 times in the grid's column 0, and the row is first or
its column-0 value differs from the previous row's column-1 cell. -/
theorem lead_start_spec (g : Grid) (i : Nat) (r : Row) (hlen : r.length = 16) :
    lead_start g i r = true ↔
      (cellAt r 0 ≠ none ∧
       (∀ k, k < 16 → 2 ≤ k → cellAt r k = none) ∧
       g.countP (fun q => cellAt q 0 == cellAt r 0) < 9 ∧
       (i = 0 ∨ cellAt (g.getD (i - 1) []) 1 ≠ cellAt r 0)) := by
  unfold lead_start lead_shape lead_gate col0_count
  rw [Bool.and_eq_true, Bool.and_eq_true, Bool.and_eq_true, Bool.or_eq_true]
  rw [List.countP_eq_length_filter]
  constructor
  · rintro ⟨⟨hsome, hnull⟩, hcount, hprev⟩
    refine ⟨?_, ?_, ?_, ?_⟩
    · exact Option.isSome_iff_ne_none.mp hsome
    · intro k h16 h2
      exact (drop_all_isNone_iff r 2 hlen).mp hnull k h16 h2
    · exact of_decide_eq_true hcount
    · rcases hprev with h | h
      · exact Or.inl (by simpa using h)
      · exact Or.inr (bne_iff_ne.mp h)
  · rintro ⟨hsome, hnull, hcount, hprev⟩
    refine ⟨⟨Option.isSome_iff_ne_none.mpr hsome, ?_⟩, ?_, ?_⟩
    · exact (drop_all_isNone_iff r 2 hlen).mpr (fun k h16 h2 => hnull k h16 h2)
    · exact decide_eq_true hcount
    · rcases hprev with h | h
      · exact Or.inl (by simp [h])
      · exact Or.inr (bne_iff_ne.mpr h)

/-- Witness for C2 amended at a concrete one-row grid. -/
theorem lead_start_spec_witness :
    lead_start [[some 1] ++ List.replicate 15 none] 0
        ([some 1] ++ List.replicate 15 none) = true :=
  (lead_start_spec [[some 1] ++ List.replicate 15 none] 0
        ([some 1] ++ List.replicate 15 none) (by decide)).mpr
    ⟨by decide, by decide, by decide, Or.inl rfl⟩

/-- Successful transformation forces the shape conditions and determines
the records. -/
theorem transform_eq_some {b : List Row} {lv pv : Cell} {month : List Cell}
    {recs : List Rec}
    (h : transform_product_data b lv pv month = some recs) :
    b ≠ [] ∧ (metric_names b).length = (block_data b).length ∧
      month.length = data_width b ∧
      recs = (List.range (data_width b)).map (transformed_record b lv pv month) := by
  unfold transform_product_data at h
  split at h
  · exact absurd h (by simp)
  · next hb =>
    split at h
    · next hc =>
      refine ⟨?_, hc.1, hc.2, ?_⟩
      · intro hbe
        exact hb (by simp [hbe])
      · exact (Option.some_inj.mp h).symm
    · exact absurd h (by simp)

/-- The shape conditions suffice for the transformation to succeed. -/
theorem transform_some_of {b : List Row} (lv pv : Cell) {month : List Cell}
    (hb : b ≠ []) (h1 : (metric_names b).length = (block_data b).length)
    (h2 : month.length = data_width b) :
    transform_product_data b lv pv month =
      some ((List.range (data_width b)).map (transformed_record b lv pv month)) := by
  have hbe : b.isEmpty = false := by simpa [List.isEmpty_iff] using hb
  simp [transform_product_data, hbe, h1, h2]

/-- The fixed fields of a transformed record read back the values the
transformer attached. -/
theorem lookup_transformed (b : List Row) (lv pv : Cell) (month : List Cell)
    (k : Nat) :
    lookupField FieldName.lead (transformed_record b lv pv month k) = lv ∧
    lookupField FieldName.productGroup (transformed_record b lv pv month k) =
      cellAt (b.headD []) 0 ∧
    lookupField FieldName.typ (transformed_record b lv pv month k) =
      cellAt (b.headD []) 1 ∧
    lookupField FieldName.product (transformed_record b lv pv month k) = pv ∧
    lookupField FieldName.month (transformed_record b lv pv month k) =
      month.getD k none :=
  ⟨rfl, rfl, rfl, rfl, rfl⟩

/-- Counterexample to C4 as stated: a single row with column 2 non-null
and columns 3..15 null satisfies the claimed PRODUCT-start condition but
is not a start for the code (whose marker is column 1), so no block is
emitted at all. -/
theorem prod_start_claim_counterexample :
    prod_start_claimed [[none, none, some 5] ++ List.replicate 13 none] 0
        ([none, none, some 5] ++ List.replicate 13 none) = true ∧
    prod_start [[none, none, some 5] ++ List.replicate 13 none] 0
        ([none, none, some 5] ++ List.replicate 13 none) = false ∧
    extract_product_data [[none, none, some 5] ++ List.replicate 13 none] = [] := by
  decide

/-- Claim C4 amended: on a 16-cell row the code's PRODUCT-start test
holds iff column 1 is non-null, columns 3..15 are all null, and the row
is first or its column-1 value differs from the previous row's column-2
cell; no repetition-count threshold is applied, and every emitted
PRODUCT label is the column-2 cell of the block's first row. -/
theorem prod_segmentation_spec (b : List Row) (i : Nat) (r : Row)
    (hlen : r.length = 16) :
    (prod_start b i r = true ↔
      (cellAt r 1 ≠ none ∧
       (∀ k, k < 16 → 3 ≤ k → cellAt r k = none) ∧
       (i = 0 ∨ cellAt (b.getD (i - 1) []) 2 ≠ cellAt r 1))) ∧
    (∀ pr ∈ extract_product_data b, pr.2 = cellAt (pr.1.headD []) 2) := by
  constructor
  · unfold prod_start prod_shape prod_gate
    rw [Bool.and_eq_true, Bool.and_eq_true, Bool.or_eq_true]
    constructor
    · rintro ⟨⟨hsome, hnull⟩, hprev⟩
      refine ⟨Option.isSome_iff_ne_none.mp hsome, ?_, ?_⟩
      · intro k h16 h3
        exact (drop_all_isNone_iff r 3 hlen).mp hnull k h16 h3
      · rcases hprev with h | h
        · exact Or.inl (by simpa using h)
        · exact Or.inr (bne_iff_ne.mp h)
    · rintro ⟨hsome, hnull, hprev⟩
      refine ⟨⟨Option.isSome_iff_ne_none.mpr hsome, ?_⟩, ?_⟩
      · exact (drop_all_isNone_iff r 3 hlen).mpr (fun k h16 h3 => hnull k h16 h3)
      · rcases hprev with h | h
        · exact Or.inl (by simp [h])
        · exact Or.inr (bne_iff_ne.mpr h)
  · exact prod_go_label b b 0 []

/-- Witness for C4 amended at a concrete one-row block. -/
theorem prod_segmentation_spec_witness :
    prod_start [[none, some 2, some 4] ++ List.replicate 13 none] 0
        ([none, some 2, some 4] ++ List.replicate 13 none) = true :=
  ((prod_segmentation_spec [[none, some 2, some 4] ++ List.replicate 13 none] 0
        ([none, some 2, some 4] ++ List.replicate 13 none) (by decide)).1).mpr
    ⟨by decide, by decide, Or.inl rfl⟩

/-- Counterexample to C5 as stated: the emitted LEAD label of this
single-block grid is the column-0 value 1, while column 1 of the block's
first row holds 7. -/
theorem lead_label_claim_counterexample :
    extract_lead_data [[some 1, some 7] ++ List.replicate 14 none] =
      [([[some 1, some 7] ++ List.replicate 14 none], some 1)] ∧
    cellAt ([some 1, some 7] ++ List.replicate 14 none) 1 ≠ some 1 := by
  decide

/-- Claim C5 amended: every emitted LeadBlock's label is the column-0
cell of the block's first row, and the transformer attaches exactly this
label as the LEAD field of every record produced from the block. -/
theorem lead_label_spec (g : Grid) (pr : List Row × Cell)
    (hpr : pr ∈ extract_lead_data g) :
    pr.2 = cellAt (pr.1.headD []) 0 ∧
    (∀ p pv month recs,
      transform_product_data p pr.2 pv month = some recs →
      ∀ rec ∈ recs, lookupField FieldName.lead rec = pr.2) := by
  refine ⟨lead_go_label g g 0 [] pr hpr, ?_⟩
  intro p pv month recs hT rec hrec
  obtain ⟨-, -, -, hrecs⟩ := transform_eq_some hT
  subst hrecs
  obtain ⟨k, -, hk⟩ := List.mem_map.mp hrec
  subst hk
  exact (lookup_transformed p pr.2 pv month k).1

/-- Witness for C5 amended at a concrete single-block grid. -/
theorem lead_label_spec_witness :
    (([[some 1] ++ List.replicate 15 none], some 1) : List Row × Cell).2 =
      cellAt (([[some 1] ++ List.replicate 15 none] : List Row).headD []) 0 :=
  (lead_label_spec [[some 1] ++ List.replicate 15 none]
    ([[some 1] ++ List.replicate 15 none], some 1) (by decide)).1

/-- Counterexample to C6 as stated: a block with three metric rows and
three metric names transforms successfully (no failure despite a
metric-name count different from 9); the code only requires the name
count to match the extracted data row count. -/
theorem transformer_claim_counterexample :
    (transform_product_data bX6 (some 1) (some 2) month12).isSome = true ∧
    (metric_names bX6).length ≠ 9 := by
  decide

/-- Claim C6 amended: the transformer fails exactly when the metric-name
count differs from the extracted data row count or the month-label count
differs from the data width (without naming any file or block), and on
success every record's field order is LEAD, PRODUCT GROUP, TYPE,
PRODUCT, Month, then the metric names in extraction order. -/
theorem transformer_spec (b : List Row) (lv pv : Cell) (month : List Cell)
    (hb : b ≠ []) (hm : metric_names b ≠ []) :
    ((transform_product_data b lv pv month).isSome ↔
      ((metric_names b).length = (block_data b).length ∧
       month.length = data_width b)) ∧
    (∀ recs, transform_product_data b lv pv month = some recs →
      ∀ rec ∈ recs, rec.map Prod.fst =
        [FieldName.lead, FieldName.productGroup, FieldName.typ,
         FieldName.product, FieldName.month] ++
          (metric_names b).map FieldName.metric) := by
  constructor
  · constructor
    · intro hs
      obtain ⟨recs, hrecs⟩ := Option.isSome_iff_exists.mp hs
      obtain ⟨-, h1, h2, -⟩ := transform_eq_some hrecs
      exact ⟨h1, h2⟩
    · rintro ⟨h1, h2⟩
      rw [transform_some_of lv pv hb h1 h2]
      rfl
  · intro recs hrecs rec hrec
    obtain ⟨-, h1, -, hr⟩ := transform_eq_some hrecs
    subst hr
    obtain ⟨k, -, hk⟩ := List.mem_map.mp hrec
    subst hk
    unfold transformed_record
    rw [List.map_append]
    congr 1
    have hlen : ((metric_names b).map FieldName.metric).length ≤
        ((block_data b).map (fun dr => dr.getD k none)).length := by
      simp [h1]
    exact List.map_fst_zip _ _ hlen

/-- Witness for C6 amended: the three-metric block satisfies both shape
conditions, so the iff yields success. -/
theorem transformer_spec_witness :
    (transform_product_data bX6 (some 1) (some 2) month12).isSome = true :=
  ((transformer_spec bX6 (some 1) (some 2) month12 (by decide) (by decide)).1).mpr
    ⟨by decide, by decide⟩

/-- Claim C1: a 16-column grid with exactly one LeadBlock containing
exactly one ProductBlock that transforms successfully yields exactly 12
records, all sharing the same LEAD, PRODUCT GROUP, TYPE and PRODUCT
values, with the k-th record's Month equal to the k-th extracted month
label. -/
theorem single_block_file_spec (g : Grid) (b : List Row) (lv : Cell)
    (p : List Row) (pv : Cell) (month : List Cell) (recs : List Rec)
    (hw : ∀ r ∈ g, r.length = 16)
    (hL : extract_lead_data g = [(b, lv)])
    (hP : extract_product_data b = [(p, pv)])
    (hM : extract_month_list g = some month)
    (hT : transform_product_data p lv pv month = some recs) :
    process_file g = some [recs] ∧
    recs.length = 12 ∧
    (∀ rec ∈ recs,
      lookupField FieldName.lead rec = lv ∧
      lookupField FieldName.productGroup rec = cellAt (p.headD []) 0 ∧
      lookupField FieldName.typ rec = cellAt (p.headD []) 1 ∧
      lookupField FieldName.product rec = pv) ∧
    (∀ k, k < recs.length →
      lookupField FieldName.month (recs.getD k []) = month.getD k none) := by
  obtain ⟨-, -, hwidth, hrecs⟩ := transform_eq_some hT
  have hmonth : month.length = 12 := by
    unfold extract_month_list at hM
    cases hr1 : g.get? 1 with
    | none =>
      rw [hr1] at hM
      exact absurd hM (by simp)
    | some r1 =>
      rw [hr1] at hM
      have hmem : r1 ∈ g := by
        rw [List.get?_eq_getElem?] at hr1
        exact List.mem_iff_getElem?.mpr ⟨1, hr1⟩
      have hlen : r1.length = 16 := hw r1 hmem
      have : month = (r1.drop 4).take 12 := by
        exact (Option.some_inj.mp hM).symm
      subst this
      simp [List.length_take, List.length_drop, hlen]
  have hC : data_width p = 12 := by
    rw [← hwidth, hmonth]
  have hlen12 : recs.length = 12 := by
    subst hrecs
    simp [hC]
  refine ⟨?_, hlen12, ?_, ?_⟩
  · simp [process_file, hM, hL, hP, hT, mapOpt]
  · intro rec hrec
    rw [hrecs] at hrec
    obtain ⟨k, -, hk⟩ := List.mem_map.mp hrec
    subst hk
    obtain ⟨e1, e2, e3, e4, -⟩ := lookup_transformed p lv pv month k
    exact ⟨e1, e2, e3, e4⟩
  · intro k hk
    rw [hlen12] at hk
    have hgetD : recs.getD k [] = transformed_record p lv pv month k := by
      subst hrecs
      simp [List.getD_eq_getElem?_getD, List.getElem?_map,
        List.getElem?_range (by omega : k < data_width p)]
    rw [hgetD]
    exact (lookup_transformed p lv pv month k).2.2.2.2

/-- Witness for C1 at the concrete single-lead single-product grid. -/
theorem single_block_file_spec_witness :
    process_file gW1 = some [recsW1] ∧ recsW1.length = 12 :=
  ⟨(single_block_file_spec gW1 bW1 (some 1) pW1 (some 4) monthW1 recsW1
      (by decide) (by decide) (by decide) (by decide) (by decide)).1,
   (single_block_file_spec gW1 bW1 (some 1) pW1 (some 4) monthW1 recsW1
      (by decide) (by decide) (by decide) (by decide) (by decide)).2.1⟩

/-- The rows of all blocks emitted by the LEAD scan loop are the open
accumulator followed by the rows `lead_keep` describes. -/
theorem lead_go_flatten (g : Grid) :
    ∀ (rows : List Row) (i : Nat) (cur : List Row),
      ((lead_go g i rows cur).map Prod.fst).flatten =
        cur ++ lead_keep g i rows (!cur.isEmpty) := by
  intro rows
  induction rows with
  | nil =>
    intro i cur
    by_cases hc : cur.isEmpty = true
    · have hcur : cur = [] := List.isEmpty_iff.mp hc
      subst hcur
      simp [lead_go, lead_keep]
    · rw [Bool.not_eq_true] at hc
      simp [lead_go, lead_keep, hc, close_block0]
  | cons r rest ih =>
    intro i cur
    by_cases hs : lead_shape r = true
    · by_cases hg : lead_gate g i r = true
      · by_cases hc : cur.isEmpty = true
        · have hcur : cur = [] := List.isEmpty_iff.mp hc
          subst hcur
          simp [lead_go, lead_keep, lead_start, hs, hg, ih]
        · rw [Bool.not_eq_true] at hc
          simp [lead_go, lead_keep, lead_start, hs, hg, hc, close_block0, ih]
      · rw [Bool.not_eq_true] at hg
        simp [lead_go, lead_keep, lead_start, hs, hg, ih]
    · rw [Bool.not_eq_true] at hs
      by_cases hc : cur.isEmpty = true
      · have hcur : cur = [] := List.isEmpty_iff.mp hc
        subst hcur
        simp [lead_go, lead_keep, lead_start, hs, ih]
      · rw [Bool.not_eq_true] at hc
        have hne : (cur ++ [r]).isEmpty = false := by
          rw [List.isEmpty_eq_false]
          simp
        simp [lead_go, lead_keep, lead_start, hs, hc, ih, hne]

/-- The rows of all blocks emitted by the PRODUCT scan loop are the open
accumulator followed by the rows `prod_keep` describes. -/
theorem prod_go_flatten (b : List Row) :
    ∀ (rows : List Row) (i : Nat) (cur : List Row),
      ((prod_go b i rows cur).map Prod.fst).flatten =
        cur ++ prod_keep b i rows (!cur.isEmpty) := by
  intro rows
  induction rows with
  | nil =>
    intro i cur
    by_cases hc : cur.isEmpty = true
    · have hcur : cur = [] := List.isEmpty_iff.mp hc
      subst hcur
      simp [prod_go, prod_keep]
    · rw [Bool.not_eq_true] at hc
      simp [prod_go, prod_keep, hc, close_block2]
  | cons r rest ih =>
    intro i cur
    by_cases hs : prod_start b i r = true
    · by_cases hc : cur.isEmpty = true
      · have hcur : cur = [] := List.isEmpty_iff.mp hc
        subst hcur
        simp [prod_go, prod_keep, hs, ih]
      · rw [Bool.not_eq_true] at hc
        simp [prod_go, prod_keep, hs, hc, close_block2, ih]
    · rw [Bool.not_eq_true] at hs
      by_cases hc : cur.isEmpty = true
      · have hcur : cur = [] := List.isEmpty_iff.mp hc
        subst hcur
        simp [prod_go, prod_keep, hs, ih]
      · rw [Bool.not_eq_true] at hc
        have hne : (cur ++ [r]).isEmpty = false := by
          rw [List.isEmpty_eq_false]
          simp
        simp [prod_go, prod_keep, hs, hc, ih, hne]

/-- Claim C3 amended: the rows the two scans emit are exactly the ones
`lead_keep` and `prod_keep` describe — rows failing the LEAD shape test
are appended when a block is open and dropped otherwise, rows passing the
shape test but failing an inner gate are dropped even when a block is
open, every non-start row at PRODUCT level is appended when a block is
open, and an open accumulator is emitted at scan end. -/
theorem scan_keep_spec (g : Grid) (b : List Row) :
    ((extract_lead_data g).map Prod.fst).flatten = lead_keep g 0 g false ∧
    ((extract_product_data b).map Prod.fst).flatten = prod_keep b 0 b false := by
  constructor
  · simpa using lead_go_flatten g g 0 []
  · simpa using prod_go_flatten b b 0 []

/-- Counterexample to C3 as stated: in this grid a block is open at row
1 and row 1 is not a block-start, yet row 1 is appended to no block — it
passes the shape test and fails the previous-row gate, so the LEAD scan
discards it. -/
theorem scan_keep_claim_counterexample :
    lead_start
        [[some 1, some 7] ++ List.replicate 14 none,
         [some 7] ++ List.replicate 15 none] 1
        ([some 7] ++ List.replicate 15 none) = false ∧
    extract_lead_data
        [[some 1, some 7] ++ List.replicate 14 none,
         [some 7] ++ List.replicate 15 none] =
      [([[some 1, some 7] ++ List.replicate 14 none], some 1)] := by
  decide

/-- Folding further batches whose columns already equal the accumulated
column list adds nothing to the union. -/
theorem union_fold_fixed (cols0 : List FieldName) :
    ∀ (rest : List (List Rec)),
      (∀ df ∈ rest, batch_columns df = cols0) →
      List.foldl
        (fun acc df => acc ++ (batch_columns df).filter (fun c => !decide (c ∈ acc)))
        cols0 rest = cols0 := by
  intro rest
  induction rest with
  | nil => intro _; rfl
  | cons d t ih =>
    intro h
    rw [List.foldl_cons]
    have hnil : (batch_columns d).filter (fun c => !decide (c ∈ cols0)) = [] := by
      rw [h d (by simp)]
      exact List.filter_eq_nil_iff.mpr (fun a ha => by simp [ha])
    rw [hnil, List.append_nil]
    exact ih (fun df hdf => h df (List.mem_cons_of_mem d hdf))

/-- When every batch shares one column list, the `pd.concat` column union
is that list. -/
theorem union_columns_const (dfs : List (List Rec)) (cols0 : List FieldName)
    (hne : dfs ≠ []) (hc : ∀ df ∈ dfs, batch_columns df = cols0) :
    union_columns dfs = cols0 := by
  match dfs, hne with
  | df :: rest, _ =>
    unfold union_columns
    rw [List.foldl_cons]
    have h1 : (([] : List FieldName) ++
        (batch_columns df).filter (fun c => !decide (c ∈ ([] : List FieldName)))) =
        cols0 := by
      rw [List.nil_append, hc df (by simp)]
      exact List.filter_eq_self.mpr (fun a _ => by simp)
    rw [h1]
    exact union_fold_fixed cols0 rest (fun d hd => hc d (List.mem_cons_of_mem df hd))

/-- Reindexing a record along its own (duplicate-free) column list is the
identity. -/
theorem reindex_self :
    ∀ (rec : Rec), (rec.map Prod.fst).Nodup →
      (rec.map Prod.fst).map (fun c => (c, lookupField c rec)) = rec := by
  intro rec
  induction rec with
  | nil => intro _; rfl
  | cons a t ih =>
    intro hnd
    rw [List.map_cons, List.map_cons]
    rw [List.map_cons] at hnd
    obtain ⟨hnotin, ht⟩ := List.nodup_cons.mp hnd
    have hhead : lookupField a.1 (a :: t) = a.2 := by
      unfold lookupField
      rw [List.find?_cons_of_pos _ (by simp)]
    rw [hhead]
    have htail : (t.map Prod.fst).map (fun c => (c, lookupField c (a :: t))) =
        (t.map Prod.fst).map (fun c => (c, lookupField c t)) := by
      apply List.map_congr_left
      intro c hc
      have hca : ¬ (a.1 = c) := fun h => hnotin (h ▸ hc)
      unfold lookupField
      rw [List.find?_cons_of_neg _ (by simp [hca])]
    rw [htail, ih ht]

/-- Claim C8 amended: with a non-empty batch list whose records all share
one duplicate-free field list, the final dataset is exactly the
concatenation of the batches in processing order — and `pd.concat` never
asserts schema equality (see the counterexample for differing schemas). -/
theorem aggregator_spec (dfs : List (List Rec)) (cols0 : List FieldName)
    (hne : dfs ≠ []) (hdf : ∀ df ∈ dfs, df ≠ [])
    (hc : ∀ df ∈ dfs, ∀ rec ∈ df, rec.map Prod.fst = cols0)
    (hnd : cols0.Nodup) :
    pdConcat dfs = some dfs.flatten := by
  have hbc : ∀ df ∈ dfs, batch_columns df = cols0 := by
    intro df h
    match df, hdf df h with
    | rec :: rest, _ =>
      unfold batch_columns
      exact hc _ h rec (by simp)
  have hu : union_columns dfs = cols0 := union_columns_const dfs cols0 hne hbc
  unfold pdConcat
  rw [if_neg (by simp [List.isEmpty_eq_false.mpr hne])]
  congr 1
  rw [hu]
  have hpt : ∀ rec ∈ dfs.flatten,
      cols0.map (fun c => (c, lookupField c rec)) = rec := by
    intro rec hrec
    obtain ⟨df, hdf1, hrec1⟩ := List.mem_flatten.mp hrec
    have hcols := hc df hdf1 rec hrec1
    rw [← hcols]
    exact reindex_self rec (by rw [hcols]; exact hnd)
  calc dfs.flatten.map (fun rec => cols0.map (fun c => (c, lookupField c rec)))
      = dfs.flatten.map id := List.map_congr_left (fun rec h => hpt rec h)
    _ = dfs.flatten := List.map_id dfs.flatten

/-- Witness for C8 amended: two single-record batches with the shared
field list (LEAD, Month) concatenate to the plain flattening. -/
theorem aggregator_spec_witness :
    pdConcat [[[(FieldName.lead, some 1), (FieldName.month, some 2)]],
              [[(FieldName.lead, some 3), (FieldName.month, some 4)]]] =
      some ([[[(FieldName.lead, some 1), (FieldName.month, some 2)]],
             [[(FieldName.lead, some 3), (FieldName.month, some 4)]]] :
        List (List Rec)).flatten :=
  aggregator_spec _ [FieldName.lead, FieldName.month]
    (by decide) (by decide) (by decide) (by decide)

/-- Counterexample to C8 as stated: two batches with different field
sets concatenate without any assertion failure — `pd.concat` aligns to
the column union instead of failing. -/
theorem aggregator_claim_counterexample :
    (pdConcat [[[(FieldName.lead, some 1)]], [[(FieldName.typ, some 2)]]]).isSome
        = true ∧
    batch_columns ([[(FieldName.lead, some 1)]] : List Rec) ≠
      batch_columns ([[(FieldName.typ, some 2)]] : List Rec) := by
  decide

/-- Replacing the element at `n` and re-consing the old value permutes a
cons of the new value. -/
theorem cons_getD_set_perm {α : Type _} (d : α) :
    ∀ (t : List α) (n : Nat) (a : α), n < t.length →
      List.Perm (t.getD n d :: t.set n a) (a :: t) := by
  intro t
  induction t with
  | nil =>
    intro n a h
    simp at h
  | cons b s ih =>
    intro n a h
    cases n with
    | zero =>
      simpa using List.Perm.swap a b s
    | succ m =>
      have h1 : List.Perm (s.getD m d :: b :: s.set m a)
          (b :: s.getD m d :: s.set m a) := List.Perm.swap b (s.getD m d) _
      have h2 : List.Perm (s.getD m d :: s.set m a) (a :: s) :=
        ih m a (by simpa using h)
      have h3 : List.Perm (b :: s.getD m d :: s.set m a) (b :: a :: s) :=
        h2.cons b
      simpa using (h1.trans h3).trans (List.Perm.swap a b s)

/-- Exchanging two rows permutes the grid. -/
theorem swap2_perm (g : Grid) :
    ∀ (i j : Nat), i < j → j < g.length → List.Perm (swap2 g i j) g := by
  induction g with
  | nil =>
    intro i j hij hj
    simp at hj
  | cons r t ih =>
    intro i j hij hj
    obtain ⟨m, rfl⟩ : ∃ m, j = m + 1 := ⟨j - 1, by omega⟩
    cases i with
    | zero =>
      have heq : swap2 (r :: t) 0 (m + 1) = t.getD m [] :: t.set m r := by
        unfold swap2
        simp
      rw [heq]
      exact cons_getD_set_perm [] t m r (by simpa using hj)
    | succ n =>
      have heq : swap2 (r :: t) (n + 1) (m + 1) = r :: swap2 t n m := by
        unfold swap2
        simp
      rw [heq]
      exact (ih n m (by omega) (by simpa using hj)).cons r

/-- The repetition count over column 0 is invariant under a row
exchange. -/
theorem col0_count_swap2 (g : Grid) (i j : Nat) (hij : i < j)
    (hj : j < g.length) (v : Cell) :
    col0_count (swap2 g i j) v = col0_count g v := by
  unfold col0_count
  rw [← List.countP_eq_length_filter, ← List.countP_eq_length_filter]
  exact (swap2_perm g i j hij hj).countP_eq _

/-- Rows other than the two exchanged ones are untouched. -/
theorem swap2_getD_of_ne (g : Grid) (i j k : Nat) (hki : k ≠ i) (hkj : k ≠ j) :
    (swap2 g i j).getD k [] = g.getD k [] := by
  unfold swap2
  rw [List.getD_eq_getElem?_getD,
    List.getElem?_set_ne (fun h => hkj h.symm),
    List.getElem?_set_ne (fun h => hki h.symm),
    List.getD_eq_getElem?_getD]

/-- Position `i` of the exchanged grid holds the old row `j`. -/
theorem swap2_getD_left (g : Grid) (i j : Nat) (hij : i < j) (hj : j < g.length) :
    (swap2 g i j).getD i [] = g.getD j [] := by
  unfold swap2
  rw [List.getD_eq_getElem?_getD]
  rw [List.getElem?_set_ne (by omega : j ≠ i),
    List.getElem?_set_self (by omega : i < g.length)]
  rfl

/-- Position `j` of the exchanged grid holds the old row `i`. -/
theorem swap2_getD_right (g : Grid) (i j : Nat) (hij : i < j) (hj : j < g.length) :
    (swap2 g i j).getD j [] = g.getD i [] := by
  unfold swap2
  rw [List.getD_eq_getElem?_getD]
  rw [List.getElem?_set_self (by simpa using hj)]
  rfl

/-- Claim C9 amended: exchanging two rows that fail the marker-shape
test inside an open block — provided the rows immediately after each
exchanged position also fail the shape test — changes no row's
LEAD-start status, hence no lead-block boundary, and likewise no row's
PRODUCT-start status at block level under the corresponding conditions.
(Without the successor conditions the claim is false: see the
counterexample, where the exchange turns a later row into a new
LEAD-start.) -/
theorem swap_nonmarker_spec (g b : Grid) (i j : Nat)
    (hij : i < j) (hj : j < g.length)
    (h1 : lead_shape_at g i = false) (h2 : lead_shape_at g j = false)
    (h3 : lead_shape_at g (i + 1) = false) (h4 : lead_shape_at g (j + 1) = false)
    (hopen : ∃ s, s ≤ i ∧ lead_start_at g s = true)
    (hjb : j < b.length)
    (p1 : prod_shape_at b i = false) (p2 : prod_shape_at b j = false)
    (p3 : prod_shape_at b (i + 1) = false) (p4 : prod_shape_at b (j + 1) = false) :
    (∀ k, lead_start_at (swap2 g i j) k = lead_start_at g k) ∧
    ((List.range g.length).filter (lead_start_at (swap2 g i j)) =
      (List.range g.length).filter (lead_start_at g)) ∧
    (∀ k, prod_start_at (swap2 b i j) k = prod_start_at b k) := by
  unfold lead_shape_at at h1 h2 h3 h4
  unfold prod_shape_at at p1 p2 p3 p4
  have hlead : ∀ k, lead_start_at (swap2 g i j) k = lead_start_at g k := by
    intro k
    unfold lead_start_at lead_start
    by_cases hki : k = i
    · subst hki
      rw [swap2_getD_left g k j hij hj, h2, h1]
      simp
    · by_cases hkj : k = j
      · subst hkj
        rw [swap2_getD_right g i k hij hj, h1, h2]
        simp
      · rw [swap2_getD_of_ne g i j k hki hkj]
        by_cases hki1 : k = i + 1
        · subst hki1
          rw [h3]
          simp
        · by_cases hkj1 : k = j + 1
          · subst hkj1
            rw [h4]
            simp
          · unfold lead_gate
            rw [col0_count_swap2 g i j hij hj]
            rw [swap2_getD_of_ne g i j (k - 1) (by omega) (by omega)]
  refine ⟨hlead, List.filter_congr (fun k _ => hlead k), ?_⟩
  intro k
  unfold prod_start_at prod_start
  by_cases hki : k = i
  · subst hki
    rw [swap2_getD_left b k j hij hjb, p2, p1]
    simp
  · by_cases hkj : k = j
    · subst hkj
      rw [swap2_getD_right b i k hij hjb, p1, p2]
      simp
    · rw [swap2_getD_of_ne b i j k hki hkj]
      by_cases hki1 : k = i + 1
      · subst hki1
        rw [p3]
        simp
      · by_cases hkj1 : k = j + 1
        · subst hkj1
          rw [p4]
          simp
        · unfold prod_gate
          rw [swap2_getD_of_ne b i j (k - 1) (by omega) (by omega)]

/-- Witness for C9 amended at a concrete five-row grid (exchange of the
metric-like rows 1 and 3, checked at position 2). -/
theorem swap_nonmarker_spec_witness :
    lead_start_at (swap2 gW9 1 3) 2 = lead_start_at gW9 2 :=
  (swap_nonmarker_spec gW9 gW9 1 3 (by omega) (by decide)
      (by decide) (by decide) (by decide) (by decide)
      ⟨0, by omega, by decide⟩ (by decide)
      (by decide) (by decide) (by decide) (by decide)).1 2

/-- Counterexample to C9 as stated: rows 1 and 3 of `gX9` are non-start
rows of its single (open) lead block, yet exchanging them makes row 2 a
LEAD-start, changing the block boundaries (one block becomes two). -/
theorem swap_nonmarker_claim_counterexample :
    gX9s = swap2 gX9 1 3 ∧
    lead_start_at gX9 0 = true ∧
    lead_start_at gX9 1 = false ∧
    lead_start_at gX9 3 = false ∧
    extract_lead_data gX9 =
      [([[some 1, some 3] ++ List.replicate 14 none,
         [none, some 3, some 9] ++ List.replicate 13 none,
         [none, none, some 5] ++ List.replicate 13 none], some 1)] ∧
    (extract_lead_data gX9s).length = 2 := by
  decide
